import Mathlib

set_option maxRecDepth 8000
set_option maxHeartbeats 1600000

/-
Verification of the `werkzeug.debug.repr` module: a shallow embedding of
the HTML debug-representation engine (`DebugReprGenerator`) and its
object-dump helpers, together with theorems settling the specification
claims about escaping, truncation limits, cycle handling, the ancestor
stack discipline, exception containment and the dump dichotomy.

Python values are modelled as nodes of an explicit heap (`Heap`), indexed
by `Nat` references; reference equality (`is`) is equality of indices.
Mutation of the generator's `_stack` is modelled by threading the stack
through every function and returning the final stack, so that the
push/pop discipline of `repr` is a provable property rather than an
assumption.  Since the Python code can be run on cyclic heaps, the
interpreter takes a fuel parameter; `none` means the fuel ran out (a
model artifact with no counterpart in the source, which simply recurses).
-/

namespace DebugRepr

/-- One character of HTML escaping, modelling Python's `html.escape` with
`quote=True` (the default used by the module): the five markup-significant
characters `& < > " '` are replaced by character entities.  Characters are
compared via their code points to keep the definition easily decidable. -/
def escapeChar (c : Char) : String :=
  if c.toNat = 38 then "&amp;"
  else if c.toNat = 60 then "&lt;"
  else if c.toNat = 62 then "&gt;"
  else if c.toNat = 34 then "&quot;"
  else if c.toNat = 39 then "&#x27;"
  else String.singleton c

/-- Character-list form of `html.escape`, applied point-wise. -/
def escapeList : List Char → List Char
  | [] => []
  | c :: cs => (escapeChar c).data ++ escapeList cs

/-- Model of `html.escape(s, quote=True)` as used throughout `repr.py`. -/
def escape (s : String) : String := String.mk (escapeList s.data)

/-- A raised Python exception as the engine observes it: `summary` is the
text `format_exception_only` would produce for it, or `none` when that
formatting itself raises (the `except Exception: info = "?"` path of
`fallback_repr`). -/
structure PyExc where
  summary : Option String
deriving DecidableEq

/-- Class-level data of a value: `exact` models the test
`type(obj) is base` against the category's expected base type(s) used by
`_add_subclass_info`; `name` is `type(obj).__name__` and `module` is
`obj.__class__.__module__`. -/
structure PyClassInfo where
  exact : Bool
  name : String
  module : String
deriving DecidableEq

instance exceptDecEq {ε α : Type} [DecidableEq ε] [DecidableEq α] :
    DecidableEq (Except ε α) := fun a b =>
  match a, b with
  | Except.ok x, Except.ok y =>
    if h : x = y then isTrue (by rw [h]) else isFalse (by intro hc; cases hc; exact h rfl)
  | Except.error x, Except.error y =>
    if h : x = y then isTrue (by rw [h]) else isFalse (by intro hc; cases hc; exact h rfl)
  | Except.ok _, Except.error _ => isFalse (by intro hc; cases hc)
  | Except.error _, Except.ok _ => isFalse (by intro hc; cases hc)

/-- The category-relevant payload of a Python value.  References (`Nat`)
point into the heap.  `strK` records whether the value is a `bytes`
(rather than `str`) instance, its text content `sval` (used when the
value serves as a mapping key in `dump_object`) and the result of
`repr(obj)` (which can raise for a subclass overriding `__repr__`).
`regexK` carries the pattern literal, i.e. the result of
`codecs.decode(repr(obj.pattern), "unicode-escape", "ignore")`.
`dictK` carries the result of iterating `d.items()`, which raises for a
`dict` subclass whose `items` misbehaves.  `objK` carries the result of
`repr(obj)`. -/
inductive PyKind where
  | numK (lit : Except PyExc String)
  | strK (isBytes : Bool) (sval : String) (r : Except PyExc String)
  | regexK (patlit : String)
  | listK (elems : List Nat)
  | tupleK (elems : List Nat)
  | setK (elems : List Nat)
  | frozensetK (elems : List Nat)
  | dequeK (elems : List Nat)
  | dictK (entries : Except PyExc (List (Nat × Nat)))
  | objK (r : Except PyExc String)
  | helperK
deriving DecidableEq

/-- A Python object: class data, payload, the result of attribute
discovery (`dir(obj)` paired with the outcome of `getattr(obj, name)` for
each discovered name, the whole discovery itself being fallible), and the
identity descriptor `object.__repr__(obj)[1:-1]` used in dump titles. -/
structure PyObj where
  cls : PyClassInfo
  kind : PyKind
  attrs : Except PyExc (List (String × Except PyExc Nat))
  idrepr : String
deriving DecidableEq

/-- A heap of Python objects; the reference `i` denotes `objs[i]` and two
references are the same object (`is`) iff they are equal numbers. -/
structure Heap where
  objs : List PyObj
deriving DecidableEq

/-- Class data of an exact built-in instance. -/
def builtinCls (n : String) : PyClassInfo := PyClassInfo.mk true n "builtins"

/-- Fallback object for dangling references; a real Python heap has no
dangling references, so its choice is irrelevant to the claims. -/
def defaultObj : PyObj :=
  PyObj.mk (builtinCls "object") (PyKind.objK (Except.ok "object")) (Except.ok []) "object"

/-- Dereference a heap reference. -/
def Heap.get (h : Heap) (i : Nat) : PyObj := h.objs.getD i defaultObj

/-- Model of `_add_subclass_info(inner, obj, base)`: if `type(obj) is base` (or one
of the bases, modelled by `cls.exact`), return `inner` unchanged;
otherwise prepend the module qualifier (omitted for the two namespaces
`"__builtin__"` and `"exceptions"` named in the source) and wrap as
`module.TypeName(inner)`.  Note the source inserts `cls.module` and
`cls.name` without escaping them. -/
def _add_subclass_info (inner : String) (cls : PyClassInfo) : String :=
  if cls.exact then inner
  else
    (if cls.module = "__builtin__" ∨ cls.module = "exceptions" then ""
     else "<span class=\"module\">" ++ cls.module ++ ".</span>") ++
    cls.name ++ "(" ++ inner ++ ")"

/-- The fixed fragment `repr` returns for the interactive-help sentinel. -/
def helperHtml : String :=
  "<span class=\"help\">Type help(object) for help about object.</span>"

/-- Number fragment: the literal text from the value is embedded in a
number span without escaping. -/
def numberHtml (lit : String) : String :=
  "<span class=\"number\">" ++ lit ++ "</span>"

/-- Model of `regex_repr`: the decoded pattern literal is embedded without
escaping. -/
def regex_repr (patlit : String) : String :=
  "re.compile(<span class=\"string regex\">r" ++ patlit ++ "</span>)"

/-- Model of `object_repr`: the object repr text, escaped, in an
`object` span. -/
def object_repr (r : String) : String :=
  "<span class=\"object\">" ++ escape r ++ "</span>"

/-- Whitespace as `str.strip()` removes it. -/
def isSpaceChar (c : Char) : Bool :=
  c = ' ' || c = '\n' || c = '\t' || c = '\r' || c = '\x0b' || c = '\x0c'

/-- Model of `info.strip()`: drop leading and trailing whitespace. -/
def pyStrip (s : String) : String :=
  String.mk (((s.data.dropWhile isSpaceChar).reverse.dropWhile isSpaceChar).reverse)

/-- Model of `fallback_repr`: best-effort exception summary (or `"?"` when the
summary itself raised), stripped, escaped, in a `brokenrepr` span. -/
def fallback_repr (e : PyExc) : String :=
  "<span class=\"brokenrepr\">&lt;broken repr (" ++
    escape (pyStrip (match e.summary with | some s => s | none => "?")) ++ ")&gt;</span>"

/-- Take the first `n` characters of a Python string (`r[:n]`). -/
def strTake (s : String) (n : Nat) : String := String.mk (s.data.take n)

/-- Drop the first `n` characters of a Python string (`r[n:]`). -/
def strDrop (s : String) (n : Nat) : String := String.mk (s.data.drop n)

/-- The opening tag of the collapsible "extended" section. -/
def extendedOpen : String := "<span class=\"extended\">"

/-- The `buf` construction of `string_repr`: shorten the repr when the
hidden part would be at least 3 characters (`len(r) - limit > 2`). -/
def string_repr_core (r : String) (limit : Nat) : String :=
  if 2 < r.length - limit then
    "<span class=\"string\">" ++ escape (strTake r limit) ++
      extendedOpen ++ escape (strDrop r limit) ++ "</span></span>"
  else
    "<span class=\"string\">" ++ escape r ++ "</span>"

/-- Detect the quote characters `'` and `"` (the test `r[0] in "'\""`). -/
def isQuoteChar (c : Char) : Bool := c.toNat = 39 || c.toNat = 34

/-- Model of `string_repr(obj, limit=70)`.  `rexc` is the result of `r = repr(obj)`
computed at the top of the function; a raising `__repr__` propagates.
If the repr looks like a standard string literal (leading quote, or `b`
followed by a quote), subclass info is applied against `(bytes, str)`;
indexing `r[0]`/`r[1]` out of range raises `IndexError` exactly as the
source would for a degenerate repr. -/
def string_repr (cls : PyClassInfo) (rexc : Except PyExc String) (limit : Nat) :
    Except PyExc String :=
  match rexc with
  | Except.error e => Except.error e
  | Except.ok r =>
    let out := string_repr_core r limit
    match r.data with
    | [] => Except.error (PyExc.mk (some "IndexError: string index out of range"))
    | c0 :: rest =>
      if isQuoteChar c0 then Except.ok (_add_subclass_info out cls)
      else if c0 = 'b' then
        match rest with
        | [] => Except.error (PyExc.mk (some "IndexError: string index out of range"))
        | c1 :: _ =>
          if isQuoteChar c1 then Except.ok (_add_subclass_info out cls)
          else Except.ok out
      else Except.ok out

/-- The pair markup of one mapping entry in `dict_repr`. -/
def pairHtml (k v : String) : String :=
  "<span class=\"pair\"><span class=\"key\">" ++ k ++
    "</span>: <span class=\"value\">" ++ v ++ "</span></span>"

/-- The shared element loop of `_sequence_repr_maker`'s proxies and of
`dict_repr`: walk the items, separating with `", "`, opening the
"extended" span when the index reaches `trigger` (`limit` for sequences,
`limit - 1` for mappings), and appending each item's fragment produced by
the fallible, stack-threading fragment function `f`.  Returns the
accumulated buffer (or `none` when `f` ran out of fuel), whether the
extended span was opened, and the final stack. -/
def itemsLoop {α : Type} (f : α → List Nat → Option String × List Nat) (trigger : Nat) :
    List α → Nat → String → Bool → List Nat → Option String × Bool × List Nat
  | [], _, buf, hasExt, st => (some buf, hasExt, st)
  | a :: rest, idx, buf, hasExt, st =>
    let buf1 := if idx ≠ 0 then buf ++ ", " else buf
    let buf2 := if idx = trigger then buf1 ++ extendedOpen else buf1
    let hx2 := if idx = trigger then true else hasExt
    match f a st with
    | (none, st1) => (none, hx2, st1)
    | (some s, st1) => itemsLoop f trigger rest (idx + 1) (buf2 ++ s) hx2 st1

/-- The proxy produced by `_sequence_repr_maker(left, right, base, limit)`:
on a recursive re-entry return the collapsed `left...right` placeholder,
otherwise run the element loop from index 0 with the opening bracket as
initial buffer, close the extended span if one was opened, append the
closing bracket, and apply subclass info. -/
def sequence_repr (rep : Nat → List Nat → Option String × List Nat)
    (left right : String) (limit : Nat) (cls : PyClassInfo)
    (elems : List Nat) (recursive : Bool) (st : List Nat) :
    Option (Except PyExc String) × List Nat :=
  if recursive then
    (some (Except.ok (_add_subclass_info (left ++ "..." ++ right) cls)), st)
  else
    match itemsLoop rep limit elems 0 left false st with
    | (none, _, st1) => (none, st1)
    | (some buf, hasExt, st1) =>
      (some (Except.ok (_add_subclass_info
        ((if hasExt then buf ++ "</span>" else buf) ++ right) cls)), st1)

/-- One mapping entry's fragment: `repr(key)` then `repr(value)`, wrapped
in the pair markup. -/
def pairFrag (rep : Nat → List Nat → Option String × List Nat)
    (kv : Nat × Nat) (st : List Nat) : Option String × List Nat :=
  match rep kv.1 st with
  | (none, st1) => (none, st1)
  | (some ks, st1) =>
    match rep kv.2 st1 with
    | (none, st2) => (none, st2)
    | (some vs, st2) => (some (pairHtml ks vs), st2)

/-- Model of `dict_repr(d, recursive, limit=5)`: collapsed placeholder on
recursion; a raising `d.items()` propagates; otherwise the entry loop
with trigger `limit - 1` (the source tests `idx == limit - 1`). -/
def dict_repr (rep : Nat → List Nat → Option String × List Nat)
    (limit : Nat) (cls : PyClassInfo)
    (entries : Except PyExc (List (Nat × Nat))) (recursive : Bool) (st : List Nat) :
    Option (Except PyExc String) × List Nat :=
  if recursive then
    (some (Except.ok (_add_subclass_info "\x7b...\x7d" cls)), st)
  else
    match entries with
    | Except.error e => (some (Except.error e), st)
    | Except.ok ents =>
      match itemsLoop (pairFrag rep) (limit - 1) ents 0 "\x7b" false st with
      | (none, _, st1) => (none, st1)
      | (some buf, hasExt, st1) =>
        (some (Except.ok (_add_subclass_info
          ((if hasExt then buf ++ "</span>" else buf) ++ "\x7d") cls)), st1)

/-- Model of `dispatch_repr(obj, recursive)`: the ordered chain of runtime-type
checks, special-casing the help sentinel, with the sequence proxies
instantiated exactly as in the class body (`list_repr`, `tuple_repr`,
`set_repr`, `frozenset_repr`, `deque_repr`, limits 8; `dict_repr`,
limit 5; `string_repr`, limit 70). -/
def dispatchWith (rep : Nat → List Nat → Option String × List Nat)
    (h : Heap) (i : Nat) (recursive : Bool) (st : List Nat) :
    Option (Except PyExc String) × List Nat :=
  match (h.get i).kind with
  | PyKind.helperK => (some (Except.ok helperHtml), st)
  | PyKind.numK lit => (some (lit.map numberHtml), st)
  | PyKind.strK _ _ rexc => (some (string_repr (h.get i).cls rexc 70), st)
  | PyKind.regexK p => (some (Except.ok (regex_repr p)), st)
  | PyKind.listK es => sequence_repr rep "[" "]" 8 (h.get i).cls es recursive st
  | PyKind.tupleK es => sequence_repr rep "(" ")" 8 (h.get i).cls es recursive st
  | PyKind.setK es => sequence_repr rep "set([" "])" 8 (h.get i).cls es recursive st
  | PyKind.frozensetK es =>
    sequence_repr rep "frozenset([" "])" 8 (h.get i).cls es recursive st
  | PyKind.dictK ents => dict_repr rep 5 (h.get i).cls ents recursive st
  | PyKind.dequeK es =>
    sequence_repr rep "<span class=\"module\">collections.</span>deque([" "])" 8
      (h.get i).cls es recursive st
  | PyKind.objK rexc => (some (rexc.map object_repr), st)

/-- Model of `DebugReprGenerator.repr(obj)` with the `_stack` threaded explicitly:
compute `recursive` by identity search of the current stack, push the
value, dispatch, turn a raised exception into `fallback_repr`, and pop on
every exit path (`finally`).  The first fuel argument bounds the
recursion depth of the model; the source has no such bound. -/
def reprS (h : Heap) : Nat → List Nat → Nat → Option String × List Nat
  | 0, st, _ => (none, st)
  | Nat.succ fuel, st, i =>
    match dispatchWith (fun j s => reprS h fuel s j) h i (st.contains i) (st ++ [i]) with
    | (none, st2) => (none, st2.dropLast)
    | (some (Except.ok s), st2) => (some s, st2.dropLast)
    | (some (Except.error e), st2) => (some (fallback_repr e), st2.dropLast)

/-- The fragment component of `reprS`. -/
def reprF (h : Heap) (fuel : Nat) (st : List Nat) (i : Nat) : Option String :=
  (reprS h fuel st i).1

/-- The dispatcher as invoked by `reprS` at a given fuel. -/
def dispatchS (h : Heap) (fuel : Nat) (i : Nat) (recursive : Bool) (st : List Nat) :
    Option (Except PyExc String) × List Nat :=
  dispatchWith (fun j s => reprS h fuel s j) h i recursive st

/-- Model of `DebugReprGenerator.__init__`: `self._stack = []`. -/
def initStack : List Nat := []

/-- One table row of `render_object_dump`:
`f"<tr><th>{escape(key)}<td><pre class=repr>{value}</pre>"`. -/
def rowHtml (k v : String) : String :=
  "<tr><th>" ++ escape k ++ "<td><pre class=repr>" ++ v ++ "</pre>"

/-- The text placed in the header `<pre class=repr>` slot:
`{repr if repr else ''}` — the empty string when no top-level repr was
supplied or when it is the (falsy) empty string. -/
def reprSlot : Option String → String
  | some r => if r = "" then "" else r
  | none => ""

/-- The part of `OBJECT_DUMP_HTML` before the header repr slot. -/
def dumpHeader (title : String) : String :=
  "<div class=box>\n  <h3>" ++ escape title ++ "</h3>\n  "

/-- The part of `OBJECT_DUMP_HTML` from the `<table>` on, with the rows
substituted and the `Nothing` placeholder for an empty row list. -/
def tablePart (items : List (String × String)) : String :=
  "\n  <table>" ++
    String.intercalate "\n"
      (if items.map (fun p => rowHtml p.1 p.2) = [] then ["<tr><td><em>Nothing</em>"]
       else items.map (fun p => rowHtml p.1 p.2)) ++
    "</table>\n</div>"

/-- Model of `render_object_dump(items, title, repr=None)`: escape each row name,
substitute the `Nothing` placeholder when there are no rows, and fill the
`OBJECT_DUMP_HTML` template (escaped title, header `<pre class=repr>`
block, newline-joined rows). -/
def render_object_dump (items : List (String × String)) (title : String)
    (rpr : Option String) : String :=
  "<div class=box>\n  <h3>" ++ escape title ++ "</h3>\n  " ++
    ("<pre class=repr>" ++ reprSlot rpr ++ "</pre>") ++
    "\n  <table>" ++
    String.intercalate "\n"
      (if items.map (fun p => rowHtml p.1 p.2) = [] then ["<tr><td><em>Nothing</em>"]
       else items.map (fun p => rowHtml p.1 p.2)) ++
    "</table>\n</div>"

/-- The `for key, value in obj.items()` loop of `dump_object`'s mapping
branch: reject the whole item list (`items = None`, inner `none`) as soon
as a key is not a `str` instance, otherwise accumulate
`(key, self.repr(value))` rows.  The outer `Option` is fuel exhaustion. -/
def scanDictItems (h : Heap) (fuel : Nat) :
    List (Nat × Nat) → List (String × String) → List Nat →
    Option (Option (List (String × String))) × List Nat
  | [], acc, st => (some (some acc), st)
  | (k, v) :: rest, acc, st =>
    match (h.get k).kind with
    | PyKind.strK false sv _ =>
      match reprS h fuel st v with
      | (none, st1) => (none, st1)
      | (some s, st1) => scanDictItems h fuel rest (acc ++ [(sv, s)]) st1
    | _ => (some none, st)

/-- The `for key in dir(obj)` loop of `dump_object`'s fallback branch: an
attribute whose `getattr` raised is silently skipped (`except Exception:
pass`); a successful one contributes a `(key, self.repr(value))` row. -/
def scanAttrItems (h : Heap) (fuel : Nat) :
    List (String × Except PyExc Nat) → List (String × String) → List Nat →
    Option (List (String × String)) × List Nat
  | [], acc, st => (some acc, st)
  | (_, Except.error _) :: rest, acc, st => scanAttrItems h fuel rest acc st
  | (k, Except.ok v) :: rest, acc, st =>
    match reprS h fuel st v with
    | (none, st1) => (none, st1)
    | (some s, st1) => scanAttrItems h fuel rest (acc ++ [(k, s)]) st1

/-- The `items is None` branch of `dump_object`: compute the top-level
`self.repr(obj)`, then walk the discovered attributes (a raising
`dir(obj)` propagates), and render a `"Details for ..."` dump. -/
def dumpDetails (h : Heap) (fuel : Nat) (st : List Nat) (i : Nat) :
    Option (Except PyExc String) × List Nat :=
  match reprS h fuel st i with
  | (none, st1) => (none, st1)
  | (some rs, st1) =>
    match (h.get i).attrs with
    | Except.error e => (some (Except.error e), st1)
    | Except.ok ats =>
      match scanAttrItems h fuel ats [] st1 with
      | (none, st2) => (none, st2)
      | (some items, st2) =>
        (some (Except.ok (render_object_dump items
          ("Details for " ++ (h.get i).idrepr) (some rs))), st2)

/-- Model of `dump_object(obj)`: for a `dict` instance try the all-text-key item
scan first (a raising `obj.items()` propagates — there is no handler
around this loop in the source); if it succeeds, render a
`"Contents of ..."` dump with no top-level repr; in every other case fall
back to the attribute dump. -/
def dump_object (h : Heap) (fuel : Nat) (st : List Nat) (i : Nat) :
    Option (Except PyExc String) × List Nat :=
  match (h.get i).kind with
  | PyKind.dictK (Except.error e) => (some (Except.error e), st)
  | PyKind.dictK (Except.ok ents) =>
    match scanDictItems h fuel ents [] st with
    | (none, st1) => (none, st1)
    | (some (some items), st1) =>
      (some (Except.ok (render_object_dump items
        ("Contents of " ++ (h.get i).idrepr) none)), st1)
    | (some none, st1) => dumpDetails h fuel st1 i
  | _ => dumpDetails h fuel st i

/-- The comprehension of `dump_locals`: one `(key, self.repr(value))` row
per entry of the locals mapping. -/
def dumpLocalsScan (h : Heap) (fuel : Nat) :
    List (String × Nat) → List (String × String) → List Nat →
    Option (List (String × String)) × List Nat
  | [], acc, st => (some acc, st)
  | (k, v) :: rest, acc, st =>
    match reprS h fuel st v with
    | (none, st1) => (none, st1)
    | (some s, st1) => dumpLocalsScan h fuel rest (acc ++ [(k, s)]) st1

/-- Model of `dump_locals(d)`: rows from the mapping, fixed title, no top-level
repr. -/
def dump_locals (h : Heap) (fuel : Nat) (st : List Nat) (d : List (String × Nat)) :
    Option String × List Nat :=
  match dumpLocalsScan h fuel d [] st with
  | (none, st1) => (none, st1)
  | (some items, st1) =>
    (some (render_object_dump items "Local variables in frame" none), st1)

/-- Comma-separated tail: each fragment prefixed by `", "`, matching the
`if idx: buf.append(", ")` separator of the loops. -/
def commaTail : List String → String
  | [] => ""
  | s :: rest => ", " ++ s ++ commaTail rest

/-- Comma-join of a fragment list as the loops produce it. -/
def commaJoin : List String → String
  | [] => ""
  | f :: rest => f ++ commaTail rest

/-- Number of raw `<` characters in a string — every HTML tag consumes
exactly one, so this counts how many tags a fragment can open. -/
def ltCount (s : String) : Nat := s.data.count '<'

/-- Boolean prefix test on character lists. -/
def listIsPre : List Char → List Char → Bool
  | [], _ => true
  | _ :: _, [] => false
  | a :: as_, b :: bs => a = b && listIsPre as_ bs

/-- Boolean infix test on character lists. -/
def listHasInfix (n : List Char) : List Char → Bool
  | [] => listIsPre n []
  | b :: bs => listIsPre n (b :: bs) || listHasInfix n bs

/-- Test that `needle` occurs as a contiguous substring of `hay`. -/
def hasSubstr (hay needle : String) : Bool := listHasInfix needle.data hay.data

/-- The attributes of a discovery list whose `getattr` succeeded, with
their references — the ones `dump_object` keeps. -/
def okAttrs (ats : List (String × Except PyExc Nat)) : List (String × Nat) :=
  ats.filterMap (fun p =>
    match p.2 with
    | Except.ok v => some (p.1, v)
    | Except.error _ => none)

lemma strExt {s t : String} (h : s.data = t.data) : s = t := by
  cases s; cases t; exact congrArg String.mk h

lemma itemsLoop_stack {α : Type} (f : α → List Nat → Option String × List Nat)
    (t : Nat) (hf : ∀ a s, (f a s).2 = s) :
    ∀ (xs : List α) (idx : Nat) (buf : String) (hx : Bool) (st : List Nat),
      (itemsLoop f t xs idx buf hx st).2.2 = st := by
  intro xs
  induction xs with
  | nil => intro idx buf hx st; rfl
  | cons a rest ih =>
    intro idx buf hx st
    rcases hfa : f a st with ⟨o, st1⟩
    have hst1 : st1 = st := by
      have h2 := hf a st; rw [hfa] at h2; exact h2
    cases o with
    | none => simp [itemsLoop, hfa, hst1]
    | some s => simp [itemsLoop, hfa, hst1, ih]

lemma pairFrag_stack (rep : Nat → List Nat → Option String × List Nat)
    (hrep : ∀ j s, (rep j s).2 = s) :
    ∀ (kv : Nat × Nat) (st : List Nat), (pairFrag rep kv st).2 = st := by
  intro kv st
  rcases h1 : rep kv.1 st with ⟨o1, st1⟩
  have hst1 : st1 = st := by have h2 := hrep kv.1 st; rw [h1] at h2; exact h2
  cases o1 with
  | none => simp [pairFrag, h1, hst1]
  | some ks =>
    have h1b : rep kv.1 st = (some ks, st) := by rw [h1, hst1]
    rcases h2 : rep kv.2 st with ⟨o2, st2⟩
    have hst2 : st2 = st := by have h3 := hrep kv.2 st; rw [h2] at h3; exact h3
    cases o2 with
    | none => simp [pairFrag, h1b, h2, hst2]
    | some vs => simp [pairFrag, h1b, h2, hst2]

lemma sequence_repr_stack (rep : Nat → List Nat → Option String × List Nat)
    (hrep : ∀ j s, (rep j s).2 = s) (left right : String) (limit : Nat)
    (cls : PyClassInfo) (elems : List Nat) (recursive : Bool) (st : List Nat) :
    (sequence_repr rep left right limit cls elems recursive st).2 = st := by
  by_cases hr : recursive
  · simp [sequence_repr, hr]
  · rcases hl : itemsLoop rep limit elems 0 left false st with ⟨o, hx, st1⟩
    have hst1 : st1 = st := by
      have h2 := itemsLoop_stack rep limit hrep elems 0 left false st
      rw [hl] at h2; exact h2
    cases o <;> simp [sequence_repr, hr, hl, hst1]

lemma dict_repr_stack (rep : Nat → List Nat → Option String × List Nat)
    (hrep : ∀ j s, (rep j s).2 = s) (limit : Nat) (cls : PyClassInfo)
    (entries : Except PyExc (List (Nat × Nat))) (recursive : Bool) (st : List Nat) :
    (dict_repr rep limit cls entries recursive st).2 = st := by
  by_cases hr : recursive
  · simp [dict_repr, hr]
  · cases entries with
    | error e => simp [dict_repr, hr]
    | ok ents =>
      rcases hl : itemsLoop (pairFrag rep) (limit - 1) ents 0 "\x7b" false st with ⟨o, hx, st1⟩
      have hst1 : st1 = st := by
        have h2 := itemsLoop_stack (pairFrag rep) (limit - 1)
          (pairFrag_stack rep hrep) ents 0 "\x7b" false st
        rw [hl] at h2; exact h2
      cases o <;> simp [dict_repr, hr, hl, hst1]

lemma dispatchWith_stack (rep : Nat → List Nat → Option String × List Nat)
    (h : Heap) (hrep : ∀ j s, (rep j s).2 = s)
    (i : Nat) (recursive : Bool) (st : List Nat) :
    (dispatchWith rep h i recursive st).2 = st := by
  cases hk : (h.get i).kind with
  | numK lit => simp [dispatchWith, hk]
  | strK b sv r => simp [dispatchWith, hk]
  | regexK p => simp [dispatchWith, hk]
  | listK es => simp [dispatchWith, hk, sequence_repr_stack rep hrep _ _ _ _ _ _ _]
  | tupleK es => simp [dispatchWith, hk, sequence_repr_stack rep hrep _ _ _ _ _ _ _]
  | setK es => simp [dispatchWith, hk, sequence_repr_stack rep hrep _ _ _ _ _ _ _]
  | frozensetK es => simp [dispatchWith, hk, sequence_repr_stack rep hrep _ _ _ _ _ _ _]
  | dequeK es => simp [dispatchWith, hk, sequence_repr_stack rep hrep _ _ _ _ _ _ _]
  | dictK ents => simp [dispatchWith, hk, dict_repr_stack rep hrep _ _ _ _ _]
  | objK r => simp [dispatchWith, hk]
  | helperK => simp [dispatchWith, hk]

lemma reprS_stack (h : Heap) : ∀ (fuel : Nat) (st : List Nat) (i : Nat),
    (reprS h fuel st i).2 = st := by
  intro fuel
  induction fuel with
  | zero => intro st i; rfl
  | succ n ih =>
    intro st i
    have hrep : ∀ (j : Nat) (s : List Nat), (reprS h n s j).2 = s := fun j s => ih s j
    rcases hd : dispatchWith (fun j s => reprS h n s j) h i (st.contains i) (st ++ [i])
      with ⟨o, st2⟩
    have hst2 : st2 = st ++ [i] := by
      have h2 := dispatchWith_stack (fun j s => reprS h n s j) h hrep i
        (st.contains i) (st ++ [i])
      rw [hd] at h2; exact h2
    subst hst2
    simp only [reprS]
    rw [hd]
    rcases o with _ | r
    · simp
    · rcases r with s | e <;> simp

lemma reprS_succ (h : Heap) (fuel : Nat) (st : List Nat) (i : Nat) :
    reprS h (fuel + 1) st i =
      ((match (dispatchS h fuel i (st.contains i) (st ++ [i])).1 with
        | none => none
        | some (Except.ok s) => some s
        | some (Except.error e) => some (fallback_repr e)), st) := by
  have hrep : ∀ (j : Nat) (s : List Nat), (reprS h fuel s j).2 = s :=
    fun j s => reprS_stack h fuel s j
  rcases hd : dispatchWith (fun j s => reprS h fuel s j) h i (st.contains i) (st ++ [i])
    with ⟨o, st2⟩
  have hst2 : st2 = st ++ [i] := by
    have h2 := dispatchWith_stack (fun j s => reprS h fuel s j) h hrep i
      (st.contains i) (st ++ [i])
    rw [hd] at h2; exact h2
  have hd2 : dispatchS h fuel i (st.contains i) (st ++ [i]) = (o, st2) := hd
  subst hst2
  simp only [reprS]
  rw [hd, hd2]
  rcases o with _ | r
  · simp
  · rcases r with s | e <;> simp

lemma fst_eq_pair {α : Type} (f : α → List Nat → Option String × List Nat)
    (hf : ∀ a s, (f a s).2 = s) (a : α) (st : List Nat) (fr : String)
    (hfa : (f a st).1 = some fr) : f a st = (some fr, st) := by
  rcases hq : f a st with ⟨o, s1⟩
  have ho : o = some fr := by rw [hq] at hfa; exact hfa
  have hs : s1 = st := by have h2 := hf a st; rw [hq] at h2; exact h2
  rw [ho, hs]

lemma itemsLoop_no_trigger {α : Type} (f : α → List Nat → Option String × List Nat)
    (t : Nat) (hf : ∀ a s, (f a s).2 = s) :
    ∀ (xs : List α) (frs : List String) (idx : Nat) (buf : String) (hx : Bool)
      (st : List Nat),
      List.Forall₂ (fun a fr => (f a st).1 = some fr) xs frs →
      1 ≤ idx → (idx + xs.length ≤ t ∨ t < idx) →
      itemsLoop f t xs idx buf hx st = (some (buf ++ commaTail frs), hx, st) := by
  intro xs
  induction xs with
  | nil =>
    intro frs idx buf hx st hfr h1 h2
    cases hfr
    simp [itemsLoop, commaTail]
  | cons a rest ih =>
    intro frs idx buf hx st hfr h1 h2
    rcases hfr with _ | ⟨hfa, hrest⟩
    rename_i fr frs2
    have hfa2 : f a st = (some fr, st) := fst_eq_pair f hf a st fr hfa
    have hnt : ¬ idx = t := by
      simp only [List.length_cons] at h2; omega
    have hn0 : ¬ idx = 0 := by omega
    simp only [itemsLoop, hfa2, if_neg hnt, if_pos hn0, ite_not, if_neg hn0]
    rw [ih frs2 (idx + 1) (buf ++ ", " ++ fr) hx st hrest (by omega)
      (by simp only [List.length_cons] at h2; omega)]
    simp [commaTail, String.append_assoc]

lemma itemsLoop_trigger {α : Type} (f : α → List Nat → Option String × List Nat)
    (t : Nat) (hf : ∀ a s, (f a s).2 = s) :
    ∀ (xs : List α) (frs : List String) (idx : Nat) (buf : String) (hx : Bool)
      (st : List Nat),
      List.Forall₂ (fun a fr => (f a st).1 = some fr) xs frs →
      1 ≤ idx → idx ≤ t → t < idx + xs.length →
      itemsLoop f t xs idx buf hx st =
        (some (buf ++ commaTail (frs.take (t - idx)) ++ ", " ++ extendedOpen ++
          commaJoin (frs.drop (t - idx))), true, st) := by
  intro xs
  induction xs with
  | nil =>
    intro frs idx buf hx st hfr h1 h2 h3
    simp only [List.length_nil] at h3
    omega
  | cons a rest ih =>
    intro frs idx buf hx st hfr h1 h2 h3
    rcases hfr with _ | ⟨hfa, hrest⟩
    rename_i fr frs2
    have hfa2 : f a st = (some fr, st) := fst_eq_pair f hf a st fr hfa
    have hn0 : ¬ idx = 0 := by omega
    by_cases hit : idx = t
    · simp only [itemsLoop, hfa2, if_pos hit, ite_not, if_neg hn0]
      rw [itemsLoop_no_trigger f t hf rest frs2 (idx + 1)
        (buf ++ ", " ++ extendedOpen ++ fr) true st hrest (by omega)
        (Or.inr (by omega))]
      have hsub : t - idx = 0 := by omega
      simp [hsub, commaTail, commaJoin, String.append_assoc]
    · have hlt : idx < t := lt_of_le_of_ne h2 hit
      simp only [itemsLoop, hfa2, if_neg hit, ite_not, if_neg hn0]
      rw [ih frs2 (idx + 1) (buf ++ ", " ++ fr) hx st hrest (by omega) (by omega)
        (by simp only [List.length_cons] at h3; omega)]
      have hsub : t - idx = (t - (idx + 1)) + 1 := by omega
      rw [hsub]
      simp [List.take_succ_cons, List.drop_succ_cons, commaTail, String.append_assoc]

lemma itemsLoop_start_short {α : Type} (f : α → List Nat → Option String × List Nat)
    (t : Nat) (hf : ∀ a s, (f a s).2 = s)
    (xs : List α) (frs : List String) (left : String) (st : List Nat)
    (hfr : List.Forall₂ (fun a fr => (f a st).1 = some fr) xs frs)
    (ht : 0 < t) (hlen : frs.length ≤ t) :
    itemsLoop f t xs 0 left false st = (some (left ++ commaJoin frs), false, st) := by
  rcases hfr with _ | ⟨hfa, hrest⟩
  · simp [itemsLoop, commaJoin]
  · rename_i a fr rest frs2
    have hfa2 : f a st = (some fr, st) := fst_eq_pair f hf a st fr hfa
    have hn0 : ¬ (0 : Nat) = t := by omega
    simp only [itemsLoop, hfa2, if_neg hn0, ite_not, if_pos rfl]
    simp only [if_true, ite_true, Nat.zero_add]
    rw [itemsLoop_no_trigger f t hf rest frs2 1 (left ++ fr) false st hrest (by omega)
      (Or.inl (by
        have hl : rest.length = frs2.length := hrest.length_eq
        simp only [List.length_cons] at hlen
        omega))]
    simp [commaJoin, String.append_assoc]

lemma itemsLoop_start_long {α : Type} (f : α → List Nat → Option String × List Nat)
    (t : Nat) (hf : ∀ a s, (f a s).2 = s)
    (xs : List α) (frs : List String) (left : String) (st : List Nat)
    (hfr : List.Forall₂ (fun a fr => (f a st).1 = some fr) xs frs)
    (ht : 0 < t) (hlen : t < frs.length) :
    itemsLoop f t xs 0 left false st =
      (some (left ++ commaJoin (frs.take t) ++ ", " ++ extendedOpen ++
        commaJoin (frs.drop t)), true, st) := by
  rcases hfr with _ | ⟨hfa, hrest⟩
  · simp only [List.length_nil] at hlen; omega
  · rename_i a fr rest frs2
    have hfa2 : f a st = (some fr, st) := fst_eq_pair f hf a st fr hfa
    have hn0 : ¬ (0 : Nat) = t := by omega
    simp only [itemsLoop, hfa2, if_neg hn0, ite_not, if_pos rfl]
    simp only [if_true, ite_true, Nat.zero_add]
    rw [itemsLoop_trigger f t hf rest frs2 1 (left ++ fr) false st hrest (by omega)
      (by omega)
      (by
        have hl : rest.length = frs2.length := hrest.length_eq
        simp only [List.length_cons] at hlen
        omega)]
    have hsub : t = (t - 1) + 1 := by omega
    rw [hsub]
    simp only [List.take_succ_cons, List.drop_succ_cons]
    have hsub2 : t - 1 + 1 - 1 = t - 1 := by omega
    rw [hsub2]
    simp [commaJoin, commaTail, String.append_assoc]

lemma sequence_repr_short (rep : Nat → List Nat → Option String × List Nat)
    (hrep : ∀ j s, (rep j s).2 = s) (left right : String) (limit : Nat)
    (cls : PyClassInfo) (elems : List Nat) (frs : List String) (st : List Nat)
    (hfr : List.Forall₂ (fun e fr => (rep e st).1 = some fr) elems frs)
    (ht : 0 < limit) (hlen : frs.length ≤ limit) :
    sequence_repr rep left right limit cls elems false st =
      (some (Except.ok (_add_subclass_info (left ++ commaJoin frs ++ right) cls)), st) := by
  have hl := itemsLoop_start_short rep limit hrep elems frs left st hfr ht hlen
  simp [sequence_repr, hl]

lemma sequence_repr_long (rep : Nat → List Nat → Option String × List Nat)
    (hrep : ∀ j s, (rep j s).2 = s) (left right : String) (limit : Nat)
    (cls : PyClassInfo) (elems : List Nat) (frs : List String) (st : List Nat)
    (hfr : List.Forall₂ (fun e fr => (rep e st).1 = some fr) elems frs)
    (ht : 0 < limit) (hlen : limit < frs.length) :
    sequence_repr rep left right limit cls elems false st =
      (some (Except.ok (_add_subclass_info
        (left ++ commaJoin (frs.take limit) ++ ", " ++ extendedOpen ++
          commaJoin (frs.drop limit) ++ "</span>" ++ right) cls)), st) := by
  have hl := itemsLoop_start_long rep limit hrep elems frs left st hfr ht hlen
  simp [sequence_repr, hl, String.append_assoc]

lemma pairFrag_forall (rep : Nat → List Nat → Option String × List Nat)
    (hrep : ∀ j s, (rep j s).2 = s) (st : List Nat)
    (ents : List (Nat × Nat)) (prs : List (String × String))
    (hf : List.Forall₂ (fun kv pr =>
      (rep kv.1 st).1 = some pr.1 ∧ (rep kv.2 st).1 = some pr.2) ents prs) :
    List.Forall₂ (fun kv fr => (pairFrag rep kv st).1 = some fr) ents
      (prs.map (fun p => pairHtml p.1 p.2)) := by
  induction hf with
  | nil => simp
  | cons h1 h2 ih =>
    rename_i kv pr rest prs2
    simp only [List.map_cons]
    constructor
    · rcases h1 with ⟨hk, hv⟩
      have hk2 : rep kv.1 st = (some pr.1, st) := fst_eq_pair rep hrep _ _ _ hk
      have hv2 : rep kv.2 st = (some pr.2, st) := fst_eq_pair rep hrep _ _ _ hv
      simp [pairFrag, hk2, hv2]
    · exact ih

/-- The per-entry fragments of a mapping, as `dict_repr`'s loop produces
them. -/
def pairFrags (prs : List (String × String)) : List String :=
  prs.map (fun p => pairHtml p.1 p.2)

lemma pairFrags_length (prs : List (String × String)) :
    (pairFrags prs).length = prs.length := by
  simp [pairFrags]

lemma dict_repr_short (rep : Nat → List Nat → Option String × List Nat)
    (hrep : ∀ j s, (rep j s).2 = s) (limit : Nat) (cls : PyClassInfo)
    (ents : List (Nat × Nat)) (prs : List (String × String)) (st : List Nat)
    (hfr : List.Forall₂ (fun kv pr =>
      (rep kv.1 st).1 = some pr.1 ∧ (rep kv.2 st).1 = some pr.2) ents prs)
    (ht : 1 < limit) (hlen : prs.length ≤ limit - 1) :
    dict_repr rep limit cls (Except.ok ents) false st =
      (some (Except.ok (_add_subclass_info
        ("\x7b" ++ commaJoin (pairFrags prs) ++ "\x7d") cls)), st) := by
  have hfr2 : List.Forall₂ (fun kv fr => (pairFrag rep kv st).1 = some fr) ents
      (pairFrags prs) := pairFrag_forall rep hrep st ents prs hfr
  have hpos : 0 < limit - 1 := by omega
  have hlen2 : (pairFrags prs).length ≤ limit - 1 := by
    rw [pairFrags_length]; exact hlen
  have hl := itemsLoop_start_short (pairFrag rep) (limit - 1) (pairFrag_stack rep hrep)
    ents (pairFrags prs) "\x7b" st hfr2 hpos hlen2
  simp [dict_repr, hl]

lemma dict_repr_long (rep : Nat → List Nat → Option String × List Nat)
    (hrep : ∀ j s, (rep j s).2 = s) (limit : Nat) (cls : PyClassInfo)
    (ents : List (Nat × Nat)) (prs : List (String × String)) (st : List Nat)
    (hfr : List.Forall₂ (fun kv pr =>
      (rep kv.1 st).1 = some pr.1 ∧ (rep kv.2 st).1 = some pr.2) ents prs)
    (ht : 1 < limit) (hlen : limit - 1 < prs.length) :
    dict_repr rep limit cls (Except.ok ents) false st =
      (some (Except.ok (_add_subclass_info
        ("\x7b" ++ commaJoin ((pairFrags prs).take (limit - 1)) ++
          ", " ++ extendedOpen ++
          commaJoin ((pairFrags prs).drop (limit - 1)) ++
          "</span>" ++ "\x7d") cls)), st) := by
  have hfr2 : List.Forall₂ (fun kv fr => (pairFrag rep kv st).1 = some fr) ents
      (pairFrags prs) := pairFrag_forall rep hrep st ents prs hfr
  have hpos : 0 < limit - 1 := by omega
  have hlen2 : limit - 1 < (pairFrags prs).length := by
    rw [pairFrags_length]; exact hlen
  have hl := itemsLoop_start_long (pairFrag rep) (limit - 1) (pairFrag_stack rep hrep)
    ents (pairFrags prs) "\x7b" st hfr2 hpos hlen2
  simp [dict_repr, hl, String.append_assoc]

lemma reprF_of_dispatch_ok (h : Heap) (fuel : Nat) (st : List Nat) (i : Nat) (s : String)
    (hd : (dispatchS h fuel i (st.contains i) (st ++ [i])).1 = some (Except.ok s)) :
    reprF h (fuel + 1) st i = some s := by
  unfold reprF
  rw [reprS_succ h fuel st i, hd]

lemma reprF_of_dispatch_err (h : Heap) (fuel : Nat) (st : List Nat) (i : Nat) (e : PyExc)
    (hd : (dispatchS h fuel i (st.contains i) (st ++ [i])).1 = some (Except.error e)) :
    reprF h (fuel + 1) st i = some (fallback_repr e) := by
  unfold reprF
  rw [reprS_succ h fuel st i, hd]

lemma dispatchS_listK (h : Heap) (fuel : Nat) (i : Nat) (recursive : Bool)
    (st2 : List Nat) (es : List Nat) (hk : (h.get i).kind = PyKind.listK es) :
    dispatchS h fuel i recursive st2 =
      sequence_repr (fun j s => reprS h fuel s j) "[" "]" 8 (h.get i).cls es recursive st2 := by
  simp [dispatchS, dispatchWith, hk]

lemma dispatchS_tupleK (h : Heap) (fuel : Nat) (i : Nat) (recursive : Bool)
    (st2 : List Nat) (es : List Nat) (hk : (h.get i).kind = PyKind.tupleK es) :
    dispatchS h fuel i recursive st2 =
      sequence_repr (fun j s => reprS h fuel s j) "(" ")" 8 (h.get i).cls es recursive st2 := by
  simp [dispatchS, dispatchWith, hk]

lemma dispatchS_setK (h : Heap) (fuel : Nat) (i : Nat) (recursive : Bool)
    (st2 : List Nat) (es : List Nat) (hk : (h.get i).kind = PyKind.setK es) :
    dispatchS h fuel i recursive st2 =
      sequence_repr (fun j s => reprS h fuel s j) "set([" "])" 8 (h.get i).cls es recursive st2 := by
  simp [dispatchS, dispatchWith, hk]

lemma dispatchS_frozensetK (h : Heap) (fuel : Nat) (i : Nat) (recursive : Bool)
    (st2 : List Nat) (es : List Nat) (hk : (h.get i).kind = PyKind.frozensetK es) :
    dispatchS h fuel i recursive st2 =
      sequence_repr (fun j s => reprS h fuel s j) "frozenset([" "])" 8
        (h.get i).cls es recursive st2 := by
  simp [dispatchS, dispatchWith, hk]

lemma dispatchS_dequeK (h : Heap) (fuel : Nat) (i : Nat) (recursive : Bool)
    (st2 : List Nat) (es : List Nat) (hk : (h.get i).kind = PyKind.dequeK es) :
    dispatchS h fuel i recursive st2 =
      sequence_repr (fun j s => reprS h fuel s j)
        "<span class=\"module\">collections.</span>deque([" "])" 8
        (h.get i).cls es recursive st2 := by
  simp [dispatchS, dispatchWith, hk]

lemma dispatchS_dictK (h : Heap) (fuel : Nat) (i : Nat) (recursive : Bool)
    (st2 : List Nat) (ents : Except PyExc (List (Nat × Nat)))
    (hk : (h.get i).kind = PyKind.dictK ents) :
    dispatchS h fuel i recursive st2 =
      dict_repr (fun j s => reprS h fuel s j) 5 (h.get i).cls ents recursive st2 := by
  simp [dispatchS, dispatchWith, hk]

lemma dispatchS_strK (h : Heap) (fuel : Nat) (i : Nat) (recursive : Bool)
    (st2 : List Nat) (b : Bool) (sv : String) (rexc : Except PyExc String)
    (hk : (h.get i).kind = PyKind.strK b sv rexc) :
    dispatchS h fuel i recursive st2 =
      (some (string_repr (h.get i).cls rexc 70), st2) := by
  simp [dispatchS, dispatchWith, hk]

lemma ltCount_append (a b : String) : ltCount (a ++ b) = ltCount a + ltCount b := by
  simp [ltCount, String.data_append, List.count_append]

lemma escapeChar_no_lt (c : Char) : (escapeChar c).data.count '<' = 0 := by
  unfold escapeChar
  split_ifs with h1 h2 h3 h4 h5
  · rfl
  · rfl
  · rfl
  · rfl
  · rfl
  · have hc : ¬ (c = '<') := by
      intro hce
      subst hce
      exact h2 rfl
    simp [String.singleton, List.count_cons, hc]

lemma escapeList_no_lt (l : List Char) : (escapeList l).count '<' = 0 := by
  induction l with
  | nil => rfl
  | cons c cs ih => simp [escapeList, List.count_append, escapeChar_no_lt, ih]

lemma escape_no_lt (s : String) : ltCount (escape s) = 0 := by
  simpa [ltCount, escape] using escapeList_no_lt s.data

/-- Example heap object: an exact `int` with literal `l`. -/
def numObj (l : String) : PyObj :=
  PyObj.mk (builtinCls "int") (PyKind.numK (Except.ok l)) (Except.ok []) "int object at 0x1"

/-- Example heap object: an exact `list` with the given element
references. -/
def listObj (es : List Nat) : PyObj :=
  PyObj.mk (builtinCls "list") (PyKind.listK es) (Except.ok []) "list object at 0x1"

/-- Example heap object: an exact `dict` with the given entry reference
pairs. -/
def dictObj (ents : List (Nat × Nat)) : PyObj :=
  PyObj.mk (builtinCls "dict") (PyKind.dictK (Except.ok ents)) (Except.ok [])
    "dict object at 0x1"

/-- Example heap object: an exact `str` with value text `sv` and repr
literal `r`. -/
def strObj (sv r : String) : PyObj :=
  PyObj.mk (builtinCls "str") (PyKind.strK false sv (Except.ok r)) (Except.ok [])
    "str object at 0x1"

/-- A list that contains itself: reference 0 is `[<itself>]`. -/
def hSelf : Heap := Heap.mk [listObj [0]]

/-- Two distinct but equal-valued empty lists inside an outer list. -/
def hTwin : Heap := Heap.mk [listObj [1, 2], listObj [], listObj []]

/-- A five-entry dict (`\x7bk: v\x7d` with the same value object five
times), exactly at the default mapping limit. -/
def hD5 : Heap :=
  Heap.mk [dictObj [(1, 6), (2, 6), (3, 6), (4, 6), (5, 6)],
    numObj "1", numObj "2", numObj "3", numObj "4", numObj "5", numObj "0"]

/-- A compiled regex whose decoded pattern literal contains raw markup
(`repr` of the one-character pattern `<x>` wrapped in quotes). -/
def hRx : Heap :=
  Heap.mk [PyObj.mk (builtinCls "Pattern") (PyKind.regexK "\x27<x>\x27")
    (Except.ok []) "re.Pattern object at 0x1"]

/-- A `dict` subclass whose `items()` raises. -/
def hBadDict : Heap :=
  Heap.mk [PyObj.mk (PyClassInfo.mk false "ItemBomb" "mymod")
    (PyKind.dictK (Except.error (PyExc.mk (some "RuntimeError: no items"))))
    (Except.ok []) "mymod.ItemBomb object at 0x1"]

/-- A `str` subclass whose own `__repr__` raises. -/
def hBadStr : Heap :=
  Heap.mk [PyObj.mk (PyClassInfo.mk false "ReprBomb" "mymod")
    (PyKind.strK false "x" (Except.error (PyExc.mk (some "ValueError: boom"))))
    (Except.ok []) "mymod.ReprBomb object at 0x1"]

/-- C5: the ancestor stack of a `DebugReprGenerator` is empty at
construction; every call to `repr` pushes exactly the inspected value
before dispatch (the dispatcher runs on `st ++ [i]`) and pops exactly
that entry on every exit path — fuel exhaustion, normal return or raised
exception — so the stack returned by any `reprS` call equals the stack it
was given, strictly LIFO around nested calls, and is `[]` again whenever
a top-level call that started on the empty stack returns. -/
theorem c5_stack_discipline :
    initStack = [] ∧
    (∀ (h : Heap) (fuel : Nat) (st : List Nat) (i : Nat), (reprS h fuel st i).2 = st) ∧
    (∀ (h : Heap) (fuel : Nat) (st : List Nat) (i : Nat),
      reprS h (fuel + 1) st i =
        ((match (dispatchS h fuel i (st.contains i) (st ++ [i])).1 with
          | none => none
          | some (Except.ok s) => some s
          | some (Except.error e) => some (fallback_repr e)), st)) :=
  ⟨rfl, fun h fuel st i => reprS_stack h fuel st i,
    fun h fuel st i => reprS_succ h fuel st i⟩

/-- C3: `repr` returns normally on every value: whatever `dispatch_repr`
does — return a fragment or raise — the surrounding handler converts a
raised exception into the broken-representation fragment and returns it
as an ordinary `some` result, so the exception never crosses the value's
boundary (ancestors receive a plain fragment); and when the exception
summary itself fails, the fallback fragment carries the literal `?`. -/
theorem c3_exception_containment :
    (∀ (h : Heap) (fuel : Nat) (st : List Nat) (i : Nat) (e : PyExc),
      (dispatchS h fuel i (st.contains i) (st ++ [i])).1 = some (Except.error e) →
      reprF h (fuel + 1) st i = some (fallback_repr e)) ∧
    (∀ (h : Heap) (fuel : Nat) (st : List Nat) (i : Nat) (s : String),
      (dispatchS h fuel i (st.contains i) (st ++ [i])).1 = some (Except.ok s) →
      reprF h (fuel + 1) st i = some s) ∧
    fallback_repr (PyExc.mk none) =
      "<span class=\"brokenrepr\">&lt;broken repr (?)&gt;</span>" :=
  ⟨fun h fuel st i e hd => reprF_of_dispatch_err h fuel st i e hd,
   fun h fuel st i s hd => reprF_of_dispatch_ok h fuel st i s hd,
   by decide⟩

/-- Witness for C3: a `str` subclass whose `__repr__` raises is rendered
as a broken-representation fragment by `repr`. -/
theorem c3_exception_containment_witness :
    reprF hBadStr 1 [] 0 =
      some (fallback_repr (PyExc.mk (some "ValueError: boom"))) :=
  c3_exception_containment.1 hBadStr 0 [] 0 (PyExc.mk (some "ValueError: boom")) rfl

/-- C4: cycle handling is by reference identity: when the value is
already on the ancestor stack the container renderer is entered with
`recursive = true` and returns the collapsed placeholder without touching
the elements (the result needs no fuel for them and does not depend on
them); a directly self-containing list therefore renders in bounded fuel
as `[[...]]`; and two distinct, equal-valued empty lists are both
rendered in full, never mistaken for a cycle. -/
theorem c4_cycle_identity :
    (∀ (h : Heap) (fuel : Nat) (st : List Nat) (i : Nat) (es : List Nat),
      (h.get i).kind = PyKind.listK es → st.contains i = true →
      reprF h (fuel + 1) st i = some (_add_subclass_info "[...]" (h.get i).cls)) ∧
    (∀ (h : Heap) (fuel : Nat) (st : List Nat) (i : Nat)
       (ents : Except PyExc (List (Nat × Nat))),
      (h.get i).kind = PyKind.dictK ents → st.contains i = true →
      reprF h (fuel + 1) st i = some (_add_subclass_info "\x7b...\x7d" (h.get i).cls)) ∧
    reprF hSelf 2 [] 0 = some "[[...]]" ∧
    reprF hTwin 3 [] 0 = some "[[], []]" := by
  refine ⟨?_, ?_, rfl, rfl⟩
  · intro h fuel st i es hk hc
    apply reprF_of_dispatch_ok
    rw [dispatchS_listK h fuel i (st.contains i) (st ++ [i]) es hk, hc]
    simp [sequence_repr]
  · intro h fuel st i ents hk hc
    apply reprF_of_dispatch_ok
    rw [dispatchS_dictK h fuel i (st.contains i) (st ++ [i]) ents hk, hc]
    simp [dict_repr]

/-- Witness for C4: the self-containing list, re-entered with itself on
the stack, renders as the collapsed placeholder with zero fuel left for
elements. -/
theorem c4_cycle_identity_witness :
    reprF hSelf 1 [0] 0 = some (_add_subclass_info "[...]" (hSelf.get 0).cls) :=
  c4_cycle_identity.1 hSelf 0 [0] 0 [0] rfl rfl

/-- C6 counterexample: for a subclass from a module whose name contains
markup, `_add_subclass_info` inserts the module name raw — the produced
fragment contains `<m>` and no escaped form `&lt;` anywhere, refuting the
claim that the namespace is included escaped. -/
theorem c6_counterexample :
    _add_subclass_info "x" (PyClassInfo.mk false "T" "<m>") =
      "<span class=\"module\"><m>.</span>T(x)" ∧
    hasSubstr (_add_subclass_info "x" (PyClassInfo.mk false "T" "<m>")) "&lt;" = false ∧
    escape "<m>" = "&lt;m&gt;" := by
  exact ⟨by decide, by decide, by decide⟩

/-- C6 (amended): subclass annotation is applied iff the exact runtime
type differs from the expected base(s): the inner fragment is returned
unchanged when `type(obj) is base`; otherwise it is wrapped as
`TypeName(inner)`, with the module qualifier omitted exactly for the
namespaces `__builtin__` and `exceptions` and otherwise prepended
**unescaped** inside the module span; and `string_repr` applies the
annotation against the text/binary base types whenever the literal looks
like a standard string. -/
theorem c6_subclass_info :
    (∀ (inner : String) (cls : PyClassInfo), cls.exact = true →
      _add_subclass_info inner cls = inner) ∧
    (∀ (inner : String) (cls : PyClassInfo), cls.exact = false →
      (cls.module = "__builtin__" ∨ cls.module = "exceptions") →
      _add_subclass_info inner cls = cls.name ++ "(" ++ inner ++ ")") ∧
    (∀ (inner : String) (cls : PyClassInfo), cls.exact = false →
      ¬ (cls.module = "__builtin__" ∨ cls.module = "exceptions") →
      _add_subclass_info inner cls =
        "<span class=\"module\">" ++ cls.module ++ ".</span>" ++
          cls.name ++ "(" ++ inner ++ ")") ∧
    (∀ (cls : PyClassInfo) (r : String) (limit : Nat) (c0 : Char) (rest : List Char),
      r.data = c0 :: rest → isQuoteChar c0 = true →
      string_repr cls (Except.ok r) limit =
        Except.ok (_add_subclass_info (string_repr_core r limit) cls)) := by
  refine ⟨?_, ?_, ?_, ?_⟩
  · intro inner cls hx
    simp [_add_subclass_info, hx]
  · intro inner cls hx hm
    simp [_add_subclass_info, hx, hm]
  · intro inner cls hx hm
    simp [_add_subclass_info, hx, hm, String.append_assoc]
  · intro cls r limit c0 rest hdata hq
    simp [string_repr, hdata, hq]

/-- Witness for C6: a `str` subclass (non-exact class from module
`mymod`) with a quote-led literal gets the annotation, and an exact
`dict` gets none. -/
theorem c6_subclass_info_witness :
    _add_subclass_info "[]" (builtinCls "list") = "[]" ∧
    _add_subclass_info "x" (PyClassInfo.mk false "D" "__builtin__") = "D(x)" ∧
    string_repr (PyClassInfo.mk false "S" "mymod") (Except.ok "\x27a\x27") 70 =
      Except.ok (_add_subclass_info (string_repr_core "\x27a\x27" 70)
        (PyClassInfo.mk false "S" "mymod")) :=
  ⟨c6_subclass_info.1 "[]" (builtinCls "list") rfl,
   c6_subclass_info.2.1 "x" (PyClassInfo.mk false "D" "__builtin__") rfl
     (Or.inl rfl),
   c6_subclass_info.2.2.2 (PyClassInfo.mk false "S" "mymod") "\x27a\x27" 70
     '\x27' ['a', '\x27'] rfl rfl⟩

/-- C8: `string_repr` splits the escaped literal iff hiding would save
more than 2 characters (`len(r) - limit > 2`, i.e. `limit + 2 < len(r)`):
the split form shows the escaped first `limit` characters (`r[:limit]`,
whose length is exactly `limit` here) followed by the escaped remainder
in an "extended" span; within the threshold the whole escaped literal is
rendered unsplit; and for a standard-looking literal the core is wrapped
with subclass info against the `(bytes, str)` bases. -/
theorem c8_string_truncation :
    (∀ (r : String) (limit : Nat), limit + 2 < r.length →
      string_repr_core r limit =
        "<span class=\"string\">" ++ escape (strTake r limit) ++ extendedOpen ++
          escape (strDrop r limit) ++ "</span></span>") ∧
    (∀ (r : String) (limit : Nat), r.length ≤ limit + 2 →
      string_repr_core r limit = "<span class=\"string\">" ++ escape r ++ "</span>") ∧
    (∀ (r : String) (limit : Nat), limit ≤ r.length →
      (strTake r limit).length = limit) ∧
    (∀ (cls : PyClassInfo) (r : String) (limit : Nat) (c0 : Char) (rest : List Char),
      r.data = c0 :: rest → isQuoteChar c0 = true →
      string_repr cls (Except.ok r) limit =
        Except.ok (_add_subclass_info (string_repr_core r limit) cls)) := by
  refine ⟨?_, ?_, ?_, ?_⟩
  · intro r limit hlen
    rw [string_repr_core, if_pos (by omega : 2 < r.length - limit)]
  · intro r limit hlen
    rw [string_repr_core, if_neg (by omega : ¬ 2 < r.length - limit)]
  · intro r limit hlen
    simp only [strTake, String.length]
    simp [List.length_take]
    omega
  · intro cls r limit c0 rest hdata hq
    simp [string_repr, hdata, hq]

/-- Witness for C8: with limit 3, the 8-character literal `"abcdefg"` +
quote is split after exactly 3 characters; a literal of length 5 is not
split. -/
theorem c8_string_truncation_witness :
    string_repr_core "\x27abcdefg\x27" 3 =
      "<span class=\"string\">" ++ escape (strTake "\x27abcdefg\x27" 3) ++
        extendedOpen ++ escape (strDrop "\x27abcdefg\x27" 3) ++ "</span></span>" ∧
    string_repr_core "\x27abc\x27" 3 =
      "<span class=\"string\">" ++ escape "\x27abc\x27" ++ "</span>" ∧
    (strTake "\x27abcdefg\x27" 3).length = 3 :=
  ⟨c8_string_truncation.1 "\x27abcdefg\x27" 3 (by decide),
   c8_string_truncation.2.1 "\x27abc\x27" 3 (by decide),
   c8_string_truncation.2.2.1 "\x27abcdefg\x27" 3 (by decide)⟩

lemma reprF_seq_spec (h : Heap) (fuel : Nat) (st : List Nat) (i : Nat)
    (es : List Nat) (frs : List String) (left right : String)
    (hd : dispatchS h fuel i (st.contains i) (st ++ [i]) =
      sequence_repr (fun j s => reprS h fuel s j) left right 8 (h.get i).cls es
        (st.contains i) (st ++ [i]))
    (hc : st.contains i = false)
    (hfr : List.Forall₂ (fun e fr => (reprS h fuel (st ++ [i]) e).1 = some fr) es frs) :
    (frs.length ≤ 8 →
      reprF h (fuel + 1) st i =
        some (_add_subclass_info (left ++ commaJoin frs ++ right) (h.get i).cls)) ∧
    (8 < frs.length →
      reprF h (fuel + 1) st i =
        some (_add_subclass_info (left ++ commaJoin (frs.take 8) ++ ", " ++ extendedOpen ++
          commaJoin (frs.drop 8) ++ "</span>" ++ right) (h.get i).cls)) := by
  have hpres : ∀ (j : Nat) (s : List Nat), ((fun j s => reprS h fuel s j) j s).2 = s :=
    fun j s => reprS_stack h fuel s j
  constructor
  · intro hlen
    apply reprF_of_dispatch_ok
    rw [hd, hc, sequence_repr_short (fun j s => reprS h fuel s j) hpres left right 8
      (h.get i).cls es frs (st ++ [i]) hfr (by omega) hlen]
  · intro hlen
    apply reprF_of_dispatch_ok
    rw [hd, hc, sequence_repr_long (fun j s => reprS h fuel s j) hpres left right 8
      (h.get i).cls es frs (st ++ [i]) hfr (by omega) hlen]

lemma reprF_dict_spec (h : Heap) (fuel : Nat) (st : List Nat) (i : Nat)
    (ents : List (Nat × Nat)) (prs : List (String × String))
    (hk : (h.get i).kind = PyKind.dictK (Except.ok ents))
    (hc : st.contains i = false)
    (hfr : List.Forall₂ (fun kv pr =>
      (reprS h fuel (st ++ [i]) kv.1).1 = some pr.1 ∧
      (reprS h fuel (st ++ [i]) kv.2).1 = some pr.2) ents prs) :
    (prs.length ≤ 4 →
      reprF h (fuel + 1) st i =
        some (_add_subclass_info ("\x7b" ++ commaJoin (pairFrags prs) ++ "\x7d")
          (h.get i).cls)) ∧
    (4 < prs.length →
      reprF h (fuel + 1) st i =
        some (_add_subclass_info
          ("\x7b" ++ commaJoin ((pairFrags prs).take 4) ++ ", " ++ extendedOpen ++
            commaJoin ((pairFrags prs).drop 4) ++ "</span>" ++ "\x7d")
          (h.get i).cls)) := by
  have hpres : ∀ (j : Nat) (s : List Nat), ((fun j s => reprS h fuel s j) j s).2 = s :=
    fun j s => reprS_stack h fuel s j
  constructor
  · intro hlen
    apply reprF_of_dispatch_ok
    rw [dispatchS_dictK h fuel i (st.contains i) (st ++ [i]) (Except.ok ents) hk, hc,
      dict_repr_short (fun j s => reprS h fuel s j) hpres 5 (h.get i).cls ents prs
        (st ++ [i]) hfr (by omega) (by omega)]
  · intro hlen
    apply reprF_of_dispatch_ok
    rw [dispatchS_dictK h fuel i (st.contains i) (st ++ [i]) (Except.ok ents) hk, hc,
      dict_repr_long (fun j s => reprS h fuel s j) hpres 5 (h.get i).cls ents prs
        (st ++ [i]) hfr (by omega) (by omega)]

/-- C2 counterexample: a dict with exactly 5 entries — the default
mapping limit — already contains the "extended" wrapper (the trigger is
`idx == limit - 1`, so only the first 4 entries render uncollapsed),
refuting the claim that a mapping with at most `limit` entries renders
with no wrapper and that the first `limit` entries are uncollapsed. -/
theorem c2_counterexample :
    (hD5.get 0).kind =
      PyKind.dictK (Except.ok [(1, 6), (2, 6), (3, 6), (4, 6), (5, 6)]) ∧
    (reprF hD5 2 [] 0).map (fun s => hasSubstr s extendedOpen) = some true := by
  exact ⟨rfl, by decide⟩

/-- C2 (amended): a sequence-variant container (list, tuple, set,
frozenset, deque) whose elements all render shows the first 8 element
fragments uncollapsed and, iff there are more than 8, the remainder in a
single "extended" wrapper; a mapping, however, triggers its wrapper at
entry index `limit - 1 = 4`: at most 4 entries render with no wrapper,
and from 5 entries on (i.e. already at the default limit 5) the first 4
entry fragments are uncollapsed with all remaining ones inside the
wrapper. -/
theorem c2_container_limits :
    (∀ (h : Heap) (fuel : Nat) (st : List Nat) (i : Nat) (es : List Nat)
       (frs : List String),
      (h.get i).kind = PyKind.listK es → st.contains i = false →
      List.Forall₂ (fun e fr => (reprS h fuel (st ++ [i]) e).1 = some fr) es frs →
      (frs.length ≤ 8 →
        reprF h (fuel + 1) st i =
          some (_add_subclass_info ("[" ++ commaJoin frs ++ "]") (h.get i).cls)) ∧
      (8 < frs.length →
        reprF h (fuel + 1) st i =
          some (_add_subclass_info ("[" ++ commaJoin (frs.take 8) ++ ", " ++
            extendedOpen ++ commaJoin (frs.drop 8) ++ "</span>" ++ "]")
            (h.get i).cls))) ∧
    (∀ (h : Heap) (fuel : Nat) (st : List Nat) (i : Nat) (es : List Nat)
       (frs : List String),
      (h.get i).kind = PyKind.tupleK es → st.contains i = false →
      List.Forall₂ (fun e fr => (reprS h fuel (st ++ [i]) e).1 = some fr) es frs →
      (frs.length ≤ 8 →
        reprF h (fuel + 1) st i =
          some (_add_subclass_info ("(" ++ commaJoin frs ++ ")") (h.get i).cls)) ∧
      (8 < frs.length →
        reprF h (fuel + 1) st i =
          some (_add_subclass_info ("(" ++ commaJoin (frs.take 8) ++ ", " ++
            extendedOpen ++ commaJoin (frs.drop 8) ++ "</span>" ++ ")")
            (h.get i).cls))) ∧
    (∀ (h : Heap) (fuel : Nat) (st : List Nat) (i : Nat) (es : List Nat)
       (frs : List String),
      (h.get i).kind = PyKind.setK es → st.contains i = false →
      List.Forall₂ (fun e fr => (reprS h fuel (st ++ [i]) e).1 = some fr) es frs →
      (frs.length ≤ 8 →
        reprF h (fuel + 1) st i =
          some (_add_subclass_info ("set([" ++ commaJoin frs ++ "])") (h.get i).cls)) ∧
      (8 < frs.length →
        reprF h (fuel + 1) st i =
          some (_add_subclass_info ("set([" ++ commaJoin (frs.take 8) ++ ", " ++
            extendedOpen ++ commaJoin (frs.drop 8) ++ "</span>" ++ "])")
            (h.get i).cls))) ∧
    (∀ (h : Heap) (fuel : Nat) (st : List Nat) (i : Nat) (es : List Nat)
       (frs : List String),
      (h.get i).kind = PyKind.frozensetK es → st.contains i = false →
      List.Forall₂ (fun e fr => (reprS h fuel (st ++ [i]) e).1 = some fr) es frs →
      (frs.length ≤ 8 →
        reprF h (fuel + 1) st i =
          some (_add_subclass_info ("frozenset([" ++ commaJoin frs ++ "])")
            (h.get i).cls)) ∧
      (8 < frs.length →
        reprF h (fuel + 1) st i =
          some (_add_subclass_info ("frozenset([" ++ commaJoin (frs.take 8) ++ ", " ++
            extendedOpen ++ commaJoin (frs.drop 8) ++ "</span>" ++ "])")
            (h.get i).cls))) ∧
    (∀ (h : Heap) (fuel : Nat) (st : List Nat) (i : Nat) (es : List Nat)
       (frs : List String),
      (h.get i).kind = PyKind.dequeK es → st.contains i = false →
      List.Forall₂ (fun e fr => (reprS h fuel (st ++ [i]) e).1 = some fr) es frs →
      (frs.length ≤ 8 →
        reprF h (fuel + 1) st i =
          some (_add_subclass_info
            ("<span class=\"module\">collections.</span>deque([" ++ commaJoin frs ++
              "])") (h.get i).cls)) ∧
      (8 < frs.length →
        reprF h (fuel + 1) st i =
          some (_add_subclass_info
            ("<span class=\"module\">collections.</span>deque([" ++
              commaJoin (frs.take 8) ++ ", " ++ extendedOpen ++
              commaJoin (frs.drop 8) ++ "</span>" ++ "])") (h.get i).cls))) ∧
    (∀ (h : Heap) (fuel : Nat) (st : List Nat) (i : Nat) (ents : List (Nat × Nat))
       (prs : List (String × String)),
      (h.get i).kind = PyKind.dictK (Except.ok ents) → st.contains i = false →
      List.Forall₂ (fun kv pr =>
        (reprS h fuel (st ++ [i]) kv.1).1 = some pr.1 ∧
        (reprS h fuel (st ++ [i]) kv.2).1 = some pr.2) ents prs →
      (prs.length ≤ 4 →
        reprF h (fuel + 1) st i =
          some (_add_subclass_info ("\x7b" ++ commaJoin (pairFrags prs) ++ "\x7d")
            (h.get i).cls)) ∧
      (4 < prs.length →
        reprF h (fuel + 1) st i =
          some (_add_subclass_info
            ("\x7b" ++ commaJoin ((pairFrags prs).take 4) ++ ", " ++ extendedOpen ++
              commaJoin ((pairFrags prs).drop 4) ++ "</span>" ++ "\x7d")
            (h.get i).cls))) :=
  ⟨fun h fuel st i es frs hk hc hfr =>
    reprF_seq_spec h fuel st i es frs "[" "]"
      (dispatchS_listK h fuel i (st.contains i) (st ++ [i]) es hk) hc hfr,
   fun h fuel st i es frs hk hc hfr =>
    reprF_seq_spec h fuel st i es frs "(" ")"
      (dispatchS_tupleK h fuel i (st.contains i) (st ++ [i]) es hk) hc hfr,
   fun h fuel st i es frs hk hc hfr =>
    reprF_seq_spec h fuel st i es frs "set([" "])"
      (dispatchS_setK h fuel i (st.contains i) (st ++ [i]) es hk) hc hfr,
   fun h fuel st i es frs hk hc hfr =>
    reprF_seq_spec h fuel st i es frs "frozenset([" "])"
      (dispatchS_frozensetK h fuel i (st.contains i) (st ++ [i]) es hk) hc hfr,
   fun h fuel st i es frs hk hc hfr =>
    reprF_seq_spec h fuel st i es frs
      "<span class=\"module\">collections.</span>deque([" "])"
      (dispatchS_dequeK h fuel i (st.contains i) (st ++ [i]) es hk) hc hfr,
   fun h fuel st i ents prs hk hc hfr =>
    reprF_dict_spec h fuel st i ents prs hk hc hfr⟩

/-- The key/value fragment pairs of the five entries of `hD5`. -/
def c2prs : List (String × String) :=
  [(numberHtml "1", numberHtml "0"), (numberHtml "2", numberHtml "0"),
   (numberHtml "3", numberHtml "0"), (numberHtml "4", numberHtml "0"),
   (numberHtml "5", numberHtml "0")]

/-- A flat three-element list of numbers. -/
def hL3 : Heap := Heap.mk [listObj [1, 2, 3], numObj "1", numObj "2", numObj "3"]

/-- Witness for C2: the 5-entry dict at the default limit renders 4
entries uncollapsed plus the wrapper; a 3-element list renders all
elements with no wrapper. -/
theorem c2_container_limits_witness :
    reprF hD5 2 [] 0 =
      some (_add_subclass_info
        ("\x7b" ++ commaJoin ((pairFrags c2prs).take 4) ++ ", " ++ extendedOpen ++
          commaJoin ((pairFrags c2prs).drop 4) ++ "</span>" ++ "\x7d")
        (hD5.get 0).cls) ∧
    reprF hL3 2 [] 0 =
      some (_add_subclass_info
        ("[" ++ commaJoin [numberHtml "1", numberHtml "2", numberHtml "3"] ++ "]")
        (hL3.get 0).cls) :=
  ⟨(c2_container_limits.2.2.2.2.2 hD5 1 [] 0 [(1, 6), (2, 6), (3, 6), (4, 6), (5, 6)]
      c2prs rfl rfl
      (List.Forall₂.cons ⟨rfl, rfl⟩ (List.Forall₂.cons ⟨rfl, rfl⟩
        (List.Forall₂.cons ⟨rfl, rfl⟩ (List.Forall₂.cons ⟨rfl, rfl⟩
          (List.Forall₂.cons ⟨rfl, rfl⟩ List.Forall₂.nil)))))).2 (by decide),
   (c2_container_limits.1 hL3 1 [] 0 [1, 2, 3]
      [numberHtml "1", numberHtml "2", numberHtml "3"] rfl rfl
      (List.Forall₂.cons rfl (List.Forall₂.cons rfl
        (List.Forall₂.cons rfl List.Forall₂.nil)))).1 (by decide)⟩

/-- C1 counterexample: the fragment for a compiled regex embeds the
pattern literal raw: with decoded pattern literal `\x27<x>\x27` the output
contains the markup-significant substring `<x>` coming from the value's
pattern text, and contains no escaped form `&lt;` at all — so not all raw
text obtained from the inspected value is escaped. -/
theorem c1_counterexample :
    reprF hRx 1 [] 0 =
      some "re.compile(<span class=\"string regex\">r\x27<x>\x27</span>)" ∧
    hasSubstr "re.compile(<span class=\"string regex\">r\x27<x>\x27</span>)" "<x>" = true ∧
    hasSubstr "re.compile(<span class=\"string regex\">r\x27<x>\x27</span>)" "&lt;"
      = false := by
  exact ⟨by decide, by decide, by decide⟩

/-- C1 (amended): escaping is applied to string literal forms, generic
object text and exception summaries — in those fragments every raw `<`
(the only character that can open a tag) belongs to the fixed markup, so
their `<`-counts are constants independent of the content; but the regex
pattern literal, the number literal and the subclass type/namespace names
are embedded unescaped, so `<` characters from those sources survive into
the fragment. -/
theorem c1_escaping_amended :
    (∀ s : String, ltCount (escape s) = 0) ∧
    (∀ r : String, ltCount (object_repr r) = 2) ∧
    (∀ e : PyExc, ltCount (fallback_repr e) = 2) ∧
    (∀ (r : String) (limit : Nat), r.length ≤ limit + 2 →
      ltCount (string_repr_core r limit) = 2) ∧
    (∀ (r : String) (limit : Nat), limit + 2 < r.length →
      ltCount (string_repr_core r limit) = 4) ∧
    (∀ p : String, ltCount (regex_repr p) = 2 + ltCount p) ∧
    (∀ l : String, ltCount (numberHtml l) = 2 + ltCount l) ∧
    (∀ (inner : String) (cls : PyClassInfo), cls.exact = false →
      ¬ (cls.module = "__builtin__" ∨ cls.module = "exceptions") →
      ltCount (_add_subclass_info inner cls) =
        2 + ltCount cls.module + ltCount cls.name + ltCount inner) := by
  refine ⟨escape_no_lt, ?_, ?_, ?_, ?_, ?_, ?_, ?_⟩
  · intro r
    rw [object_repr, ltCount_append, ltCount_append, escape_no_lt]
    decide
  · intro e
    rw [fallback_repr, ltCount_append, ltCount_append, escape_no_lt]
    decide
  · intro r limit hlen
    rw [string_repr_core, if_neg (by omega : ¬ 2 < r.length - limit),
      ltCount_append, ltCount_append, escape_no_lt]
    decide
  · intro r limit hlen
    rw [string_repr_core, if_pos (by omega : 2 < r.length - limit)]
    simp only [ltCount_append, escape_no_lt]
    decide
  · intro p
    rw [regex_repr, ltCount_append, ltCount_append]
    have h1 : ltCount "re.compile(<span class=\"string regex\">r" = 1 := by decide
    have h2 : ltCount "</span>)" = 1 := by decide
    omega
  · intro l
    rw [numberHtml, ltCount_append, ltCount_append]
    have h1 : ltCount "<span class=\"number\">" = 1 := by decide
    have h2 : ltCount "</span>" = 1 := by decide
    omega
  · intro inner cls hx hm
    simp only [_add_subclass_info, hx, Bool.false_eq_true, if_false, if_neg hm]
    simp only [ltCount_append]
    have h1 : ltCount "<span class=\"module\">" = 1 := by decide
    have h2 : ltCount ".</span>" = 1 := by decide
    have h3 : ltCount "(" = 0 := by decide
    have h4 : ltCount ")" = 0 := by decide
    omega

/-- Witness for C1: concrete instances of the split string case and the
unescaped subclass-module case. -/
theorem c1_escaping_amended_witness :
    ltCount (string_repr_core "\x27abcdefgh\x27" 3) = 4 ∧
    ltCount (string_repr_core "\x27ab\x27" 3) = 2 ∧
    ltCount (_add_subclass_info "x" (PyClassInfo.mk false "T" "<m>")) =
      2 + ltCount "<m>" + ltCount "T" + ltCount "x" :=
  ⟨c1_escaping_amended.2.2.2.2.1 "\x27abcdefgh\x27" 3 (by decide),
   c1_escaping_amended.2.2.2.1 "\x27ab\x27" 3 (by decide),
   c1_escaping_amended.2.2.2.2.2.2.2 "x" (PyClassInfo.mk false "T" "<m>") rfl
     (by decide)⟩

lemma dumpDetails_err (h : Heap) (fuel : Nat) (st : List Nat) (i : Nat) (e : PyExc)
    (hd : (dumpDetails h fuel st i).1 = some (Except.error e)) :
    (h.get i).attrs = Except.error e := by
  rcases h1 : reprS h fuel st i with ⟨o1, st1⟩
  cases o1 with
  | none => rw [dumpDetails, h1] at hd; simp at hd
  | some rs =>
    cases ha : (h.get i).attrs with
    | error e2 =>
      rw [dumpDetails, h1, ha] at hd
      simp at hd
      exact congrArg Except.error hd
    | ok ats =>
      rcases h2 : scanAttrItems h fuel ats [] st1 with ⟨o2, st2⟩
      rw [dumpDetails, h1, ha] at hd
      cases o2 with
      | none => simp [h2] at hd
      | some items => simp [h2] at hd

/-- C7 counterexample: `dump_object` on a `dict` subclass whose `items()`
raises propagates the exception to the caller (there is no handler around
the mapping loop), refuting the claim that no error is ever surfaced by a
public entry point. -/
theorem c7_counterexample :
    (dump_object hBadDict 1 [] 0).1 =
      some (Except.error (PyExc.mk (some "RuntimeError: no items"))) := by
  decide

/-- C7 (amended): the only ways an exception can escape `dump_object` are
a raising `obj.items()` on the mapping path and a raising `dir(obj)` on
the attribute path; per-value rendering failures are contained inside
`repr` and per-attribute access failures are silently skipped, so when
iteration and discovery succeed no error is surfaced. -/
theorem c7_error_containment :
    ∀ (h : Heap) (fuel : Nat) (st : List Nat) (i : Nat) (e : PyExc),
      (dump_object h fuel st i).1 = some (Except.error e) →
      (h.get i).kind = PyKind.dictK (Except.error e) ∨
        (h.get i).attrs = Except.error e := by
  intro h fuel st i e hd
  cases hk : (h.get i).kind with
  | dictK ents =>
    cases ents with
    | error e2 =>
      left
      rw [dump_object, hk] at hd
      simp at hd
      rw [hd]
    | ok ents2 =>
      rcases h2 : scanDictItems h fuel ents2 [] st with ⟨o2, st2⟩
      rw [dump_object, hk] at hd
      rcases o2 with _ | oo
      · simp [h2] at hd
      · rcases oo with _ | items
        · simp only [h2] at hd
          right
          exact dumpDetails_err h fuel st2 i e hd
        · simp [h2] at hd
  | numK lit =>
    rw [dump_object, hk] at hd
    exact Or.inr (dumpDetails_err h fuel st i e hd)
  | strK b sv r =>
    rw [dump_object, hk] at hd
    exact Or.inr (dumpDetails_err h fuel st i e hd)
  | regexK p =>
    rw [dump_object, hk] at hd
    exact Or.inr (dumpDetails_err h fuel st i e hd)
  | listK es =>
    rw [dump_object, hk] at hd
    exact Or.inr (dumpDetails_err h fuel st i e hd)
  | tupleK es =>
    rw [dump_object, hk] at hd
    exact Or.inr (dumpDetails_err h fuel st i e hd)
  | setK es =>
    rw [dump_object, hk] at hd
    exact Or.inr (dumpDetails_err h fuel st i e hd)
  | frozensetK es =>
    rw [dump_object, hk] at hd
    exact Or.inr (dumpDetails_err h fuel st i e hd)
  | dequeK es =>
    rw [dump_object, hk] at hd
    exact Or.inr (dumpDetails_err h fuel st i e hd)
  | objK r =>
    rw [dump_object, hk] at hd
    exact Or.inr (dumpDetails_err h fuel st i e hd)
  | helperK =>
    rw [dump_object, hk] at hd
    exact Or.inr (dumpDetails_err h fuel st i e hd)

/-- Witness for C7: on the raising-items dict, the surfaced exception is
indeed attributed to the mapping iteration. -/
theorem c7_error_containment_witness :
    (hBadDict.get 0).kind =
        PyKind.dictK (Except.error (PyExc.mk (some "RuntimeError: no items"))) ∨
      (hBadDict.get 0).attrs = Except.error (PyExc.mk (some "RuntimeError: no items")) :=
  c7_error_containment hBadDict 1 [] 0 (PyExc.mk (some "RuntimeError: no items"))
    (by decide)

lemma reprS_pair_of_fst (h : Heap) (fuel : Nat) (st : List Nat) (v : Nat) (s : String)
    (hv : (reprS h fuel st v).1 = some s) : reprS h fuel st v = (some s, st) := by
  rcases hq : reprS h fuel st v with ⟨o, s1⟩
  have ho : o = some s := by rw [hq] at hv; exact hv
  have hs : s1 = st := by have h2 := reprS_stack h fuel st v; rw [hq] at h2; exact h2
  rw [ho, hs]

lemma scanDict_ok (h : Heap) (fuel : Nat) :
    ∀ (ents : List (Nat × Nat)) (rows acc : List (String × String)) (st : List Nat),
      List.Forall₂ (fun kv row =>
        (∃ rx, (h.get kv.1).kind = PyKind.strK false row.1 rx) ∧
        (reprS h fuel st kv.2).1 = some row.2) ents rows →
      scanDictItems h fuel ents acc st = (some (some (acc ++ rows)), st) := by
  intro ents
  induction ents with
  | nil =>
    intro rows acc st hf
    cases hf
    simp [scanDictItems]
  | cons kv rest ih =>
    intro rows acc st hf
    obtain ⟨k, v⟩ := kv
    rcases hf with _ | ⟨⟨⟨rx, hk⟩, hv⟩, hrest⟩
    rename_i row rows2
    have hv2 : reprS h fuel st v = (some row.2, st) := reprS_pair_of_fst h fuel st v row.2 hv
    rw [scanDictItems, hk, hv2]
    simp only []
    rw [ih rows2 (acc ++ [(row.1, row.2)]) st hrest]
    simp

lemma scanAttr_ok (h : Heap) (fuel : Nat) :
    ∀ (ats : List (String × Except PyExc Nat)) (rows acc : List (String × String))
      (st : List Nat),
      List.Forall₂ (fun (p : String × Nat) row =>
        p.1 = row.1 ∧ (reprS h fuel st p.2).1 = some row.2) (okAttrs ats) rows →
      scanAttrItems h fuel ats acc st = (some (acc ++ rows), st) := by
  intro ats
  induction ats with
  | nil =>
    intro rows acc st hf
    cases hf
    simp [scanAttrItems]
  | cons p rest ih =>
    obtain ⟨k, ve⟩ := p
    intro rows acc st hf
    cases ve with
    | error e2 =>
      have hok : okAttrs ((k, Except.error e2) :: rest) = okAttrs rest := by
        simp [okAttrs]
      rw [hok] at hf
      rw [scanAttrItems]
      exact ih rows acc st hf
    | ok v =>
      have hok : okAttrs ((k, Except.ok v) :: rest) = (k, v) :: okAttrs rest := by
        simp [okAttrs]
      rw [hok] at hf
      rcases hf with _ | ⟨⟨hk1, hv⟩, hrest⟩
      rename_i row rows2
      have hv2 : reprS h fuel st v = (some row.2, st) :=
        reprS_pair_of_fst h fuel st v row.2 hv
      rw [scanAttrItems, hv2]
      simp only []
      rw [ih rows2 (acc ++ [(k, row.2)]) st hrest]
      have hk2 : k = row.1 := hk1
      rw [hk2]
      simp

/-- Test modelling `isinstance(key, str)` in `dump_object`: a `str`
instance or subclass; `bytes` and everything else fail the test. -/
def isStrKey (h : Heap) (k : Nat) : Bool :=
  match (h.get k).kind with
  | PyKind.strK false _ _ => true
  | _ => false

/-- Test modelling `isinstance(obj, dict)` in `dump_object`. -/
def isDictKind : PyKind → Bool
  | PyKind.dictK _ => true
  | _ => false

lemma dumpDetails_ok (h : Heap) (fuel : Nat) (st : List Nat) (i : Nat)
    (ats : List (String × Except PyExc Nat)) (rows : List (String × String))
    (rs : String)
    (ha : (h.get i).attrs = Except.ok ats)
    (hrs : (reprS h fuel st i).1 = some rs)
    (hf : List.Forall₂ (fun (p : String × Nat) row =>
      p.1 = row.1 ∧ (reprS h fuel st p.2).1 = some row.2) (okAttrs ats) rows) :
    dumpDetails h fuel st i =
      (some (Except.ok (render_object_dump rows
        ("Details for " ++ (h.get i).idrepr) (some rs))), st) := by
  have hrs2 : reprS h fuel st i = (some rs, st) :=
    reprS_pair_of_fst h fuel st i rs hrs
  rw [dumpDetails, hrs2]
  simp only []
  rw [ha]
  simp only []
  rw [scanAttr_ok h fuel ats rows [] st hf]
  simp

lemma scanDict_bad (h : Heap) (fuel : Nat) :
    ∀ (good : List (Nat × Nat)) (kbad vbad : Nat) (rest : List (Nat × Nat))
      (acc : List (String × String)) (st : List Nat),
      (∀ kv ∈ good, isStrKey h kv.1 = true ∧ ∃ s, (reprS h fuel st kv.2).1 = some s) →
      isStrKey h kbad = false →
      scanDictItems h fuel (good ++ (kbad, vbad) :: rest) acc st = (some none, st) := by
  intro good
  induction good with
  | nil =>
    intro kbad vbad rest acc st hgood hbad
    simp only [List.nil_append]
    cases hk : (h.get kbad).kind with
    | strK b sv rx =>
      cases b with
      | false => simp [isStrKey, hk] at hbad
      | true => simp [scanDictItems, hk]
    | numK lit => simp [scanDictItems, hk]
    | regexK p => simp [scanDictItems, hk]
    | listK es => simp [scanDictItems, hk]
    | tupleK es => simp [scanDictItems, hk]
    | setK es => simp [scanDictItems, hk]
    | frozensetK es => simp [scanDictItems, hk]
    | dequeK es => simp [scanDictItems, hk]
    | dictK ents => simp [scanDictItems, hk]
    | objK r => simp [scanDictItems, hk]
    | helperK => simp [scanDictItems, hk]
  | cons kv good2 ih =>
    intro kbad vbad rest acc st hgood hbad
    obtain ⟨k, v⟩ := kv
    obtain ⟨hks, s, hs⟩ := hgood (k, v) (by simp)
    cases hk : (h.get k).kind with
    | strK b sv rx =>
      cases b with
      | true => simp [isStrKey, hk] at hks
      | false =>
        have hs2 : reprS h fuel st v = (some s, st) :=
          reprS_pair_of_fst h fuel st v s hs
        rw [List.cons_append, scanDictItems, hk, hs2]
        simp only []
        exact ih kbad vbad rest (acc ++ [(sv, s)]) st
          (fun kv2 hkv2 => hgood kv2 (List.mem_cons_of_mem _ hkv2)) hbad
    | numK lit => simp [isStrKey, hk] at hks
    | regexK p => simp [isStrKey, hk] at hks
    | listK es => simp [isStrKey, hk] at hks
    | tupleK es => simp [isStrKey, hk] at hks
    | setK es => simp [isStrKey, hk] at hks
    | frozensetK es => simp [isStrKey, hk] at hks
    | dequeK es => simp [isStrKey, hk] at hks
    | dictK ents => simp [isStrKey, hk] at hks
    | objK r => simp [isStrKey, hk] at hks
    | helperK => simp [isStrKey, hk] at hks

/-- C9: `dump_object` is a dichotomy.  A `dict` whose entries all have
`str` keys renders a `"Contents of " + identity` table with exactly the
rows `(key text, repr(value))`, one per entry in order, and no top-level
representation (`none` in the header slot).  Every other value renders a
`"Details for " + identity` table with the top-level `repr(obj)` and
exactly one row per discovered attribute whose access succeeded
(`okAttrs`), attributes that raised being silently omitted — both for a
value that is not a `dict` at all (second branch, any kind) and for a
`dict` whose item scan reaches a non-`str` key, the dichotomy's boundary
case, where `items` is reset to `None` and the same attribute path runs
(third branch). -/
theorem c9_dump_dichotomy :
    (∀ (h : Heap) (fuel : Nat) (st : List Nat) (i : Nat) (ents : List (Nat × Nat))
       (rows : List (String × String)),
      (h.get i).kind = PyKind.dictK (Except.ok ents) →
      List.Forall₂ (fun kv row =>
        (∃ rx, (h.get kv.1).kind = PyKind.strK false row.1 rx) ∧
        (reprS h fuel st kv.2).1 = some row.2) ents rows →
      dump_object h fuel st i =
        (some (Except.ok (render_object_dump rows
          ("Contents of " ++ (h.get i).idrepr) none)), st)) ∧
    (∀ (h : Heap) (fuel : Nat) (st : List Nat) (i : Nat)
       (ats : List (String × Except PyExc Nat)) (rows : List (String × String))
       (rs : String),
      isDictKind (h.get i).kind = false →
      (h.get i).attrs = Except.ok ats →
      (reprS h fuel st i).1 = some rs →
      List.Forall₂ (fun (p : String × Nat) row =>
        p.1 = row.1 ∧ (reprS h fuel st p.2).1 = some row.2) (okAttrs ats) rows →
      dump_object h fuel st i =
        (some (Except.ok (render_object_dump rows
          ("Details for " ++ (h.get i).idrepr) (some rs))), st)) ∧
    (∀ (h : Heap) (fuel : Nat) (st : List Nat) (i : Nat) (good : List (Nat × Nat))
       (kbad vbad : Nat) (rest2 : List (Nat × Nat))
       (ats : List (String × Except PyExc Nat)) (rows : List (String × String))
       (rs : String),
      (h.get i).kind = PyKind.dictK (Except.ok (good ++ (kbad, vbad) :: rest2)) →
      (∀ kv ∈ good, isStrKey h kv.1 = true ∧ ∃ s, (reprS h fuel st kv.2).1 = some s) →
      isStrKey h kbad = false →
      (h.get i).attrs = Except.ok ats →
      (reprS h fuel st i).1 = some rs →
      List.Forall₂ (fun (p : String × Nat) row =>
        p.1 = row.1 ∧ (reprS h fuel st p.2).1 = some row.2) (okAttrs ats) rows →
      dump_object h fuel st i =
        (some (Except.ok (render_object_dump rows
          ("Details for " ++ (h.get i).idrepr) (some rs))), st)) := by
  refine ⟨?_, ?_, ?_⟩
  · intro h fuel st i ents rows hk hf
    rw [dump_object, hk]
    simp only []
    rw [scanDict_ok h fuel ents rows [] st hf]
    simp
  · intro h fuel st i ats rows rs hnd ha hrs hf
    cases hk : (h.get i).kind
    case dictK ents =>
      rw [hk] at hnd
      simp [isDictKind] at hnd
    all_goals rw [dump_object, hk]
    all_goals simp only []
    all_goals exact dumpDetails_ok h fuel st i ats rows rs ha hrs hf
  · intro h fuel st i good kbad vbad rest2 ats rows rs hk hgood hbad ha hrs hf
    rw [dump_object, hk]
    simp only []
    rw [scanDict_bad h fuel good kbad vbad rest2 [] st hgood hbad]
    simp only []
    exact dumpDetails_ok h fuel st i ats rows rs ha hrs hf

/-- A dict with one text-keyed entry, and a generic object with one
readable and one raising attribute. -/
def hMap : Heap := Heap.mk [dictObj [(1, 2)], strObj "a" "\x27a\x27", numObj "7"]

/-- Generic object whose attribute `good` reads reference 1 and whose
attribute `bad` raises on access. -/
def hObjA : Heap :=
  Heap.mk [PyObj.mk (builtinCls "Foo") (PyKind.objK (Except.ok "<Foo>"))
    (Except.ok [("good", Except.ok 1),
      ("bad", Except.error (PyExc.mk (some "AttributeError: bad")))])
    "Foo object at 0x1", numObj "7"]

/-- A dict whose single key is a number, not text: the boundary case that
falls back from the Contents scan to the Details path; it has one
readable attribute `n`. -/
def hBadKey : Heap :=
  Heap.mk [PyObj.mk (builtinCls "dict") (PyKind.dictK (Except.ok [(1, 2)]))
    (Except.ok [("n", Except.ok 2)]) "dict object at 0x1",
    numObj "9", numObj "7"]

/-- Witness for C9: the text-keyed dict dumps as a Contents table with
its one row and no top repr; the generic object dumps as a Details table
with the top repr and only the readable attribute as a row; and the
number-keyed dict falls through to a Details table whose top repr is the
dict's own rendering. -/
theorem c9_dump_dichotomy_witness :
    dump_object hMap 1 [] 0 =
      (some (Except.ok (render_object_dump [("a", numberHtml "7")]
        ("Contents of " ++ (hMap.get 0).idrepr) none)), []) ∧
    dump_object hObjA 1 [] 0 =
      (some (Except.ok (render_object_dump [("good", numberHtml "7")]
        ("Details for " ++ (hObjA.get 0).idrepr) (some (object_repr "<Foo>")))), []) ∧
    dump_object hBadKey 2 [] 0 =
      (some (Except.ok (render_object_dump [("n", numberHtml "7")]
        ("Details for " ++ (hBadKey.get 0).idrepr)
        (some ("\x7b" ++ pairHtml (numberHtml "9") (numberHtml "7") ++ "\x7d")))), []) :=
  ⟨c9_dump_dichotomy.1 hMap 1 [] 0 [(1, 2)] [("a", numberHtml "7")] rfl
     (List.Forall₂.cons ⟨⟨Except.ok "\x27a\x27", rfl⟩, rfl⟩ List.Forall₂.nil),
   c9_dump_dichotomy.2.1 hObjA 1 [] 0
     [("good", Except.ok 1),
      ("bad", Except.error (PyExc.mk (some "AttributeError: bad")))]
     [("good", numberHtml "7")] (object_repr "<Foo>") rfl rfl (by decide)
     (List.Forall₂.cons ⟨rfl, by decide⟩ List.Forall₂.nil),
   c9_dump_dichotomy.2.2 hBadKey 2 [] 0 [] 1 2 []
     [("n", Except.ok 2)] [("n", numberHtml "7")]
     ("\x7b" ++ pairHtml (numberHtml "9") (numberHtml "7") ++ "\x7d")
     rfl (by simp) rfl rfl (by decide)
     (List.Forall₂.cons ⟨rfl, by decide⟩ List.Forall₂.nil)⟩

/-- C10: `render_object_dump` always emits exactly one header
`<pre class=repr>` block between the escaped title and the table: the
output decomposes as `dumpHeader title ++ "<pre class=repr>" ++ slot ++
"</pre>" ++ tablePart items`; the slot is the empty string (the block is
emitted, empty, not omitted) when no top-level repr is supplied, and the
supplied text otherwise; and the escaped title contributes no raw `<`,
so the three fixed `<`s of `dumpHeader` are the only tag openers before
the header block — the structure is identical in both dump forms. -/
theorem c10_header_block :
    (∀ (items : List (String × String)) (title : String) (rpr : Option String),
      render_object_dump items title rpr =
        dumpHeader title ++ "<pre class=repr>" ++ reprSlot rpr ++ "</pre>" ++
          tablePart items) ∧
    reprSlot none = "" ∧
    (∀ title : String, ltCount (dumpHeader title) = 3) ∧
    (∀ r : String, ¬ r = "" → reprSlot (some r) = r) := by
  refine ⟨?_, rfl, ?_, ?_⟩
  · intro items title rpr
    apply strExt
    simp [render_object_dump, dumpHeader, tablePart, String.data_append,
      List.append_assoc]
  · intro title
    rw [dumpHeader, ltCount_append, ltCount_append, escape_no_lt]
    decide
  · intro r hr
    simp [reprSlot, hr]

/-- Witness for C10: concrete decomposition with an empty header block,
and the non-empty slot case. -/
theorem c10_header_block_witness :
    render_object_dump [] "t" none =
      dumpHeader "t" ++ "<pre class=repr>" ++ reprSlot none ++ "</pre>" ++
        tablePart [] ∧
    reprSlot (some "x") = "x" :=
  ⟨c10_header_block.1 [] "t" none, c10_header_block.2.2.2 "x" (by decide)⟩

end DebugRepr
